import Mathlib

/-!
Verification of the fetch-orchestration core of the lead-gen-pipeline
repository (`lead_gen_pipeline/crawler.py` and `lead_gen_pipeline/utils.py`).

The Python code is shallowly embedded: exceptions become an inductive error
type threaded through `Except`, the event loop's interleaving points become
explicit parameters (per-attempt network outcomes, sampled delays, clock
readings), and the crawler's mutable attributes become an explicit state
record.  Every definition is translated from the source file it names in its
doc comment.
-/

namespace LeadGen

/-- Exception taxonomy of the crawler, mirroring the exception classes that
`fetch_page` (crawler.py lines 441-464) can catch:
`httpx.HTTPStatusError` (carries `e.response.status_code` and
`str(e.request.url)`), `httpx.TimeoutException`, other `httpx.RequestError`
(whose `e.request` attribute may be absent, hence the `Option`),
`playwright TimeoutError`, other playwright `Error`,
`RobotsTxtDisallowedError` (crawler.py lines 29-34, carries `url` and
`user_agent`), `RuntimeError`, `ValueError` (crawler.py line 394) and
`AttributeError` (raised by reading a missing instance attribute). -/
inductive PyExc where
  | httpStatusError (status : Nat) (requestUrl : String)
  | httpTimeout
  | httpRequestError (requestUrl : Option String)
  | pwTimeout
  | pwError
  | robotsDisallowed (url userAgent : String)
  | runtimeError
  | valueError (msg : String)
  | attributeError (attr : String)
deriving DecidableEq, Repr

/-- The exception tuple of the `@async_retry` decoration of
`fetch_page_content_with_retry` (crawler.py lines 366-368):
`(httpx.HTTPStatusError, httpx.TimeoutException, httpx.RequestError,
PlaywrightBaseError, RobotsTxtDisallowedError, RuntimeError)`.
`httpTimeout` is an `httpx.RequestError` subclass and `pwTimeout` a
`PlaywrightBaseError` subclass, so both are covered by the tuple. -/
def retryableExc : PyExc → Bool
  | .httpStatusError _ _ => true
  | .httpTimeout => true
  | .httpRequestError _ => true
  | .pwTimeout => true
  | .pwError => true
  | .robotsDisallowed _ _ => true
  | .runtimeError => true
  | .valueError _ => false
  | .attributeError _ => false

/-- The attempt loop of `async_retry` (utils.py lines 101-121):
`for attempt in range(current_max_retries + 1)` runs the wrapped operation;
an exception matching the decorator's tuple is swallowed and the operation is
re-run unless `attempt == current_max_retries`, in which case the caught
exception object is re-raised by a bare `raise`; an exception outside the
tuple propagates at once.  `op i` is the outcome of the `i`-th invocation;
`fuel` counts the attempts still allowed after the current one.  The returned
`Nat` is the number of times the operation was invoked.  (The backoff sleeps
between attempts, utils.py lines 112-121, only affect timing and are modelled
by `retrySleepTimes` below.) -/
def retryGo (retryableP : PyExc → Bool) (op : Nat → Except PyExc α) :
    Nat → Nat → Except PyExc α × Nat
  | attempt, 0 =>
    match op attempt with
    | .ok a => (.ok a, attempt + 1)
    | .error e =>
      -- `attempt == current_max_retries`: the caught exception is re-raised
      -- by a bare `raise`, whether it matched the tuple or not.
      if retryableP e then (.error e, attempt + 1) else (.error e, attempt + 1)
  | attempt, fuel + 1 =>
    match op attempt with
    | .ok a => (.ok a, attempt + 1)
    | .error e =>
      if retryableP e then retryGo retryableP op (attempt + 1) fuel
      else (.error e, attempt + 1)

/-- `async_retry` (utils.py lines 71-127) resolved to a concrete
`max_retries` budget: the initial attempt plus up to `maxRetries` retries. -/
def asyncRetry (retryableP : PyExc → Bool) (maxRetries : Nat)
    (op : Nat → Except PyExc α) : Except PyExc α × Nat :=
  retryGo retryableP op 0 maxRetries

/-- Sleep durations of the retry loop (utils.py lines 112-121):
`actual_sleep_time = max(0, current_delay + jitter)` where
`jitter = uniform(-jitter_factor, jitter_factor) * current_delay`, and
`current_delay *= backoff_factor` after each retry.  `jitters n` stands for
the sampled `uniform` value of the `n`-th retry. -/
def retrySleepTimes (delay0 backoff : ℚ) (jitters : Nat → ℚ) : Nat → List ℚ
  | 0 => []
  | n + 1 =>
    max 0 (delay0 + jitters 0 * delay0) ::
      retrySleepTimes (delay0 * backoff) backoff (fun i => jitters (i + 1)) n

end LeadGen

namespace LeadGen

set_option maxRecDepth 4000 in
theorem retryGo_all_error (retryableP : PyExc → Bool) (op : Nat → Except PyExc α)
    (errOf : Nat → PyExc) (hop : ∀ i, op i = .error (errOf i))
    (hret : ∀ i, retryableP (errOf i) = true) :
    ∀ fuel attempt,
      retryGo retryableP op attempt fuel = (.error (errOf (attempt + fuel)), attempt + fuel + 1) := by
  intro fuel
  induction fuel with
  | zero =>
    intro attempt
    simp only [retryGo, hop attempt, hret attempt, Nat.add_zero, if_true]
  | succ f ih =>
    intro attempt
    have harith : attempt + 1 + f = attempt + (f + 1) := by omega
    simp only [retryGo, hop attempt, hret attempt, if_true]
    rw [ih (attempt + 1), harith]

/-- C5: an operation that raises a retryable error on every invocation,
wrapped by `async_retry` with a resolved retry budget of `N`, is invoked
exactly `N + 1` times, and the error surfaced to the caller is exactly the
error object raised by the final invocation — no wrapping. -/
theorem retry_exhaustion_spec (retryableP : PyExc → Bool) (N : Nat)
    (op : Nat → Except PyExc α) (errOf : Nat → PyExc)
    (hop : ∀ i, op i = .error (errOf i))
    (hret : ∀ i, retryableP (errOf i) = true) :
    asyncRetry retryableP N op = (.error (errOf N), N + 1) := by
  unfold asyncRetry
  rw [retryGo_all_error retryableP op errOf hop hret N 0]
  simp

/-- Witness for C5: a constantly-timing-out operation with a budget of two
retries is invoked three times and the timeout error itself comes back. -/
theorem retry_exhaustion_spec_witness :
    asyncRetry retryableExc 2 (fun _ => (.error .httpTimeout : Except PyExc Nat)) =
      (.error .httpTimeout, 3) :=
  retry_exhaustion_spec retryableExc 2 _ (fun _ => .httpTimeout)
    (fun _ => rfl) (fun _ => rfl)

end LeadGen

namespace LeadGen

/-! ## Robots-exclusion component (crawler.py lines 83-199)

`urllib.robotparser.RobotFileParser` is an external library; a parsed rule
set is modelled by its only observable used by the crawler, `can_fetch`. -/

/-- A parsed robots.txt rule set, observable through
`parser.can_fetch(user_agent, url)`. -/
structure RobotsRules where
  canFetch : String → String → Bool

/-- Outcome of one scheme's `client.get(f"{scheme}://{domain}/robots.txt")`
inside `_fetch_and_parse_robots_txt` (crawler.py lines 102-124):
a 200 response whose text parses to `some rules`, or whose parsing raises
(`parsed = none`, crawler.py lines 128-133); a 404; any other status;
an `httpx.RequestError`; or an unexpected exception — the last four all
fall through to the next scheme. -/
inductive SchemeAttempt where
  | ok (parsed : Option RobotsRules)
  | notFound
  | otherStatus (code : Nat)
  | reqError
  | unexpectedErr

/-- `_fetch_and_parse_robots_txt` (crawler.py lines 83-136): try HTTPS then
HTTP; only a 200 yields content (`break`); content is parsed, with a parse
failure degrading to `none`; if neither scheme yields content the result is
`none` ("Assuming permissive").  No exception escapes this function. -/
def fetchAndParseRobotsTxt (domain : String)
    (httpsTry httpTry : SchemeAttempt) : Option RobotsRules :=
  if domain = "" then none
  else
    match httpsTry with
    | .ok parsed => parsed
    | _ =>
      match httpTry with
      | .ok parsed => parsed
      | _ => none

/-- The robots-parser LRU cache `self._robots_parsers_cache`
(an `OrderedDict`, crawler.py line 51), modelled as an association list in
recency order: head = least recently used, last = most recently used.
Keys are unique, as in any `dict`. -/
abbrev RobotsCache := List (String × Option RobotsRules)

/-- `domain in self._robots_parsers_cache` /
`self._robots_parsers_cache[domain]`: association-list lookup. -/
def cacheLookup (c : RobotsCache) (d : String) : Option (Option RobotsRules) :=
  match c.find? (fun p => p.1 = d) with
  | some p => some p.2
  | none => none

/-- `self._robots_parsers_cache.move_to_end(domain)` (crawler.py lines
144, 158): on a hit, the entry moves to the most-recently-used end. -/
def cacheTouch (c : RobotsCache) (d : String) : RobotsCache :=
  match cacheLookup c d with
  | none => c
  | some v => c.filter (fun p => p.1 ≠ d) ++ [(d, v)]

/-- The insertion step of `_get_robots_parser` (crawler.py lines 164-169):
`if len(cache) >= ROBOTS_TXT_CACHE_SIZE: cache.popitem(last=False)` — evict
the least-recently-used entry — then `cache[domain] = parser` appends at the
most-recently-used end. -/
def cacheInsert (cap : Nat) (c : RobotsCache) (d : String)
    (v : Option RobotsRules) : RobotsCache :=
  (if cap ≤ c.length then c.drop 1 else c) ++ [(d, v)]

/-- The cache-management steps of `_get_robots_parser` BELOW the
registry-lock acquisition (crawler.py lines 143-146 and 155-169): hit →
`move_to_end` and answer; miss → insert the fetched result with LRU
eviction.  This is only the sub-path of the per-request discipline: on the
state `__init__` actually produces, a miss never reaches it, because line
150 (`async with self._registry_lock:`) raises `AttributeError` first —
`getRobotsParser` below embeds the full path including that error; this
sub-path executes only on a state whose `_registry_lock` exists, as
`__post_init__` (crawler.py lines 480-481) intended.
`getRobotsParser_locked_cache` proves the correspondence. -/
def cacheGetOrInsert (cap : Nat) (c : RobotsCache) (d : String)
    (v : Option RobotsRules) : RobotsCache :=
  match cacheLookup c d with
  | some _ => cacheTouch c d
  | none => cacheInsert cap c d v

/-- Domain keys of the cache in recency order. -/
def cacheKeys (c : RobotsCache) : List String := c.map Prod.fst

/-! ## Crawler state and the fetch orchestrator (crawler.py lines 36-464) -/

/-- The mutable attributes of `AsyncWebCrawler` that the fetch path reads.
`__init__` (crawler.py lines 44-54) creates `_robots_parsers_cache` (empty)
and `_robots_fetch_locks`, but NOT `_registry_lock`: that attribute is
assigned only inside `__post_init__` (crawler.py lines 480-481), a hook that
Python never invokes on this plain class (it is neither a dataclass nor a
Pydantic model), so `registryLockInit` records whether the attribute exists
on the instance. -/
structure CrawlerState where
  robotsCache : RobotsCache
  registryLockInit : Bool

/-- The state produced by `AsyncWebCrawler.__init__`: empty robots cache and
no `_registry_lock` attribute. -/
def mkCrawlerState : CrawlerState := ⟨[], false⟩

/-- `AsyncWebCrawler.__post_init__` (crawler.py lines 480-481) would create
`_registry_lock`; no code path ever calls it. -/
def postInit (st : CrawlerState) : CrawlerState := { st with registryLockInit := true }

/-- `_get_robots_parser` (crawler.py lines 138-171) for one serialized call:
empty domain answers `none`; a cache hit touches recency and answers; on a
miss the code executes `async with self._registry_lock:` — reading a missing
attribute raises `AttributeError` — then takes the per-domain fetch lock,
double-checks the cache, fetches/parses robots.txt and inserts with LRU
eviction.  Returns the parser (or the exception), the updated state, and the
number of robots.txt network fetches performed. -/
def getRobotsParser (cap : Nat) (st : CrawlerState) (domain : String)
    (httpsTry httpTry : SchemeAttempt) :
    Except PyExc (Option RobotsRules) × CrawlerState × Nat :=
  if domain = "" then (.ok none, st, 0)
  else
    match cacheLookup st.robotsCache domain with
    | some v => (.ok v, { st with robotsCache := cacheTouch st.robotsCache domain }, 0)
    | none =>
      if st.registryLockInit then
        -- per-domain fetch lock held; double-check the cache
        match cacheLookup st.robotsCache domain with
        | some v => (.ok v, { st with robotsCache := cacheTouch st.robotsCache domain }, 0)
        | none =>
          let parser := fetchAndParseRobotsTxt domain httpsTry httpTry
          (.ok parser,
            { st with robotsCache := cacheInsert cap st.robotsCache domain parser }, 1)
      else
        (.error (.attributeError "_registry_lock"), st, 0)

/-- `_check_robots_txt` (crawler.py lines 173-199): no derivable domain is
assumed allowed; no parser (permissive sentinel) is assumed allowed;
otherwise `parser.can_fetch(user_agent, url)` decides, a `False` raising
`RobotsTxtDisallowedError(url, user_agent)`.  (`can_fetch` is total here,
so the except-branch of crawler.py lines 189-191 is not taken.) -/
def checkRobotsTxt (cap : Nat) (st : CrawlerState)
    (domainOf : String → Option String) (userAgent url : String)
    (httpsTry httpTry : SchemeAttempt) :
    Except PyExc Unit × CrawlerState × Nat :=
  match domainOf url with
  | none => (.ok (), st, 0)
  | some domain =>
    match getRobotsParser cap st domain httpsTry httpTry with
    | (.error e, st', n) => (.error e, st', n)
    | (.ok none, st', n) => (.ok (), st', n)
    | (.ok (some rules), st', n) =>
      if rules.canFetch userAgent url then (.ok (), st', n)
      else (.error (.robotsDisallowed url userAgent), st', n)

/-- `200 <= status_code < 300`. -/
def is2xx (s : Nat) : Bool := 200 ≤ s && s < 300

/-- Outcome of the single `client.get(url)` of
`_perform_httpx_fetch_attempt` (crawler.py lines 337-364): a response
(final status after redirects, text, final URL), a timeout, or another
request error (which may or may not carry a `request` attribute). -/
inductive HttpxOutcome where
  | response (status : Nat) (text : String) (finalUrl : String)
  | timeout
  | reqError (requestUrl : Option String)

/-- `_perform_httpx_fetch_attempt` (crawler.py lines 337-364):
`response.raise_for_status()` raises `httpx.HTTPStatusError` for every
non-2xx response; a 2xx returns `(response.text, status, final_url)`. -/
def performHttpxFetchAttempt (o : HttpxOutcome) : Except PyExc (String × Nat × String) :=
  match o with
  | .response s t u => if is2xx s then .ok (t, s, u) else .error (.httpStatusError s u)
  | .timeout => .error .httpTimeout
  | .reqError ru => .error (.httpRequestError ru)

/-- Outcome of `page.goto(url, ...)` in `_fetch_with_playwright`
(crawler.py lines 283-335): a response object (status, HTML after
`page.content()`, `page.url`), no response object, a playwright
`TimeoutError`, another playwright error, or an unexpected exception. -/
inductive PWOutcome where
  | response (status : Nat) (html : String) (finalUrl : String)
  | noResponse
  | timeoutErr
  | baseErr
  | unexpectedErr

/-- `_fetch_with_playwright` (crawler.py lines 283-335).  A response object
returns `(html, status, final_url)` WITHOUT raising on non-2xx (only a
warning is logged, lines 303-306).  `goto` returning no object raises
`PlaywrightBaseError` (line 311); a playwright `TimeoutError` re-raises
(line 316); another playwright error re-raises (line 320); an unexpected
exception is wrapped into a `PlaywrightBaseError` (line 325).  The local
`status_code` values 599/408/598/597 set on those paths are dead stores:
the raise discards them.  The context teardown of the `finally` block has
no effect on the returned value. -/
def fetchWithPlaywright (o : PWOutcome) : Except PyExc (String × Nat × String) :=
  match o with
  | .response s h u => .ok (h, s, u)
  | .noResponse => .error .pwError
  | .timeoutErr => .error .pwTimeout
  | .baseErr => .error .pwError
  | .unexpectedErr => .error .pwError

/-- Crawler configuration read by the fetch path
(`config.py` `CrawlerSettings`): `RESPECT_ROBOTS_TXT`, `MAX_RETRIES`,
`ROBOTS_TXT_CACHE_SIZE`, `ROBOTS_TXT_USER_AGENT`. -/
structure CrawlCfg where
  respectRobots : Bool
  maxRetries : Nat
  cacheSize : Nat
  robotsUA : String

/-- The network's behaviour during one attempt of
`fetch_page_content_with_retry`: the two robots.txt scheme attempts and the
outcome of whichever fetch strategy runs. -/
structure AttemptEnv where
  robotsHttps : SchemeAttempt
  robotsHttp : SchemeAttempt
  httpx : HttpxOutcome
  pw : PWOutcome

/-- One attempt of `fetch_page_content_with_retry` (crawler.py lines
370-416): robots check when `RESPECT_ROBOTS_TXT` (line 377-378), then
`extract_domain` for rate limiting with `ValueError` when none (lines
392-394), then — under the rate-limit permit, which does not alter the
result — the chosen strategy (lines 396-404).  The CAPTCHA scan (lines
406-414) only logs and never alters the result.  Returns the attempt's
outcome, the crawler state, and the counts of robots.txt fetches and of
strategy (page) fetches performed. -/
def attemptRun (cfg : CrawlCfg) (domainOf : String → Option String)
    (url : String) (usePW : Bool) (st : CrawlerState) (env : AttemptEnv) :
    Except PyExc (String × Nat × String) × CrawlerState × Nat × Nat :=
  let robotsStep :=
    if cfg.respectRobots then
      checkRobotsTxt cfg.cacheSize st domainOf cfg.robotsUA url
        env.robotsHttps env.robotsHttp
    else (.ok (), st, 0)
  match robotsStep with
  | (.error e, st', rn) => (.error e, st', rn, 0)
  | (.ok (), st', rn) =>
    match domainOf url with
    | none => (.error (.valueError "no domain for rate limiting"), st', rn, 0)
    | some _ =>
      if usePW then (fetchWithPlaywright env.pw, st', rn, 1)
      else (performHttpxFetchAttempt env.httpx, st', rn, 1)

/-- The `@async_retry` loop around `fetch_page_content_with_retry`
(crawler.py lines 366-372, utils.py lines 101-121), with the crawler state
threaded through the attempts and the invocation / robots-fetch /
strategy-fetch counts accumulated.  Structure identical to `retryGo`. -/
def fetchLoop (cfg : CrawlCfg) (domainOf : String → Option String)
    (url : String) (usePW : Bool) (envs : Nat → AttemptEnv) :
    Nat → Nat → CrawlerState →
    Except PyExc (String × Nat × String) × CrawlerState × Nat × Nat × Nat
  | attempt, 0, st =>
    match attemptRun cfg domainOf url usePW st (envs attempt) with
    | (r, st', rn, fn) => (r, st', 1, rn, fn)
  | attempt, fuel + 1, st =>
    match attemptRun cfg domainOf url usePW st (envs attempt) with
    | (.ok r, st', rn, fn) => (.ok r, st', 1, rn, fn)
    | (.error e, st', rn, fn) =>
      if retryableExc e then
        match fetchLoop cfg domainOf url usePW envs (attempt + 1) fuel st' with
        | (r, st'', inv, rn', fn') => (r, st'', inv + 1, rn + rn', fn + fn')
      else (.error e, st', 1, rn, fn)

/-- The `except` chain of `fetch_page` (crawler.py lines 441-464):
`RobotsTxtDisallowedError → (None, 403, e.url)`;
`httpx.HTTPStatusError → (None, e.response.status_code, str(e.request.url))`;
`httpx.TimeoutException → (None, 408, url)`;
`httpx.RequestError → (None, 599, str(e.request.url) if available else url)`;
`PlaywrightBaseError` (timeouts included) `→ (None, 598, url)`;
`RuntimeError → (None, 500, url)`; any other exception `→ (None, 500, url)`. -/
def handleExc (url : String) : PyExc → Option String × Nat × String
  | .robotsDisallowed u _ => (none, 403, u)
  | .httpStatusError s ru => (none, s, ru)
  | .httpTimeout => (none, 408, url)
  | .httpRequestError ru => (none, 599, ru.getD url)
  | .pwTimeout => (none, 598, url)
  | .pwError => (none, 598, url)
  | .runtimeError => (none, 500, url)
  | .valueError _ => (none, 500, url)
  | .attributeError _ => (none, 500, url)

/-- `s.startswith(p)`: the first `len(p)` characters of `s` equal `p`. -/
def strStarts (s p : String) : Bool :=
  decide (s.data.take p.data.length = p.data)

/-- `url.startswith(('http://', 'https://'))` (crawler.py line 425);
`not url` is subsumed, the empty string matching neither alternative. -/
def validScheme (url : String) : Bool :=
  strStarts url "http://" || strStarts url "https://"

/-- `fetch_page` (crawler.py lines 418-464): URL-format validation
`→ (None, 0, url)`, domain derivation `→ (None, 0, url)` when impossible,
then the retry-wrapped fetch with the `except` chain above.  Returns the
result triple, the final crawler state, and the counts of body invocations,
robots.txt fetches, and strategy (page) fetches.  `domainOf` stands for
`extract_domain` (utils.py lines 155-184), an oracle over the external
`tldextract` library; it never returns the empty string. -/
def fetchPageRun (cfg : CrawlCfg) (domainOf : String → Option String)
    (url : String) (usePW : Bool) (st : CrawlerState) (envs : Nat → AttemptEnv) :
    (Option String × Nat × String) × CrawlerState × Nat × Nat × Nat :=
  if validScheme url then
    match domainOf url with
    | none => ((none, 0, url), st, 0, 0, 0)
    | some _ =>
      match fetchLoop cfg domainOf url usePW envs 0 cfg.maxRetries st with
      | (.ok (h, s, u), st', inv, rn, fn) => ((some h, s, u), st', inv, rn, fn)
      | (.error e, st', inv, rn, fn) => (handleExc url e, st', inv, rn, fn)
  else ((none, 0, url), st, 0, 0, 0)

/-- The caller-visible result of `fetch_page`. -/
def fetchPage (cfg : CrawlCfg) (domainOf : String → Option String)
    (url : String) (usePW : Bool) (st : CrawlerState) (envs : Nat → AttemptEnv) :
    Option String × Nat × String :=
  (fetchPageRun cfg domainOf url usePW st envs).1

/-- How many times the retry wrapper invoked the wrapped body. -/
def fetchInvocations (cfg : CrawlCfg) (domainOf : String → Option String)
    (url : String) (usePW : Bool) (st : CrawlerState) (envs : Nat → AttemptEnv) : Nat :=
  (fetchPageRun cfg domainOf url usePW st envs).2.2.1

/-- How many robots.txt network fetches the call performed. -/
def robotsFetches (cfg : CrawlCfg) (domainOf : String → Option String)
    (url : String) (usePW : Bool) (st : CrawlerState) (envs : Nat → AttemptEnv) : Nat :=
  (fetchPageRun cfg domainOf url usePW st envs).2.2.2.1

/-- How many page (strategy) fetches the call performed. -/
def strategyFetches (cfg : CrawlCfg) (domainOf : String → Option String)
    (url : String) (usePW : Bool) (st : CrawlerState) (envs : Nat → AttemptEnv) : Nat :=
  (fetchPageRun cfg domainOf url usePW st envs).2.2.2.2

/-! ## Concrete fixtures used by closed counterexamples and witnesses -/

/-- A concrete `extract_domain` oracle: `http://example.com/` has the
registrable domain `example.com`. -/
def dom0 : String → Option String :=
  fun u => if u = "http://example.com/" then some "example.com" else none

/-- A benign network: robots.txt 404s on both schemes and the page itself
responds 200 under either strategy. -/
def env404 : AttemptEnv :=
  { robotsHttps := .notFound, robotsHttp := .notFound,
    httpx := .response 200 "<html>ok</html>" "http://example.com/",
    pw := .response 200 "<html>ok</html>" "http://example.com/" }

/-- Default-like configuration with `RESPECT_ROBOTS_TXT = True`. -/
def cfgR : CrawlCfg :=
  { respectRobots := true, maxRetries := 3, cacheSize := 100, robotsUA := "LeadGenBot" }

/-- Same configuration with `RESPECT_ROBOTS_TXT = False`. -/
def cfgNR : CrawlCfg := { cfgR with respectRobots := false }

/-- A crawler whose robots cache already holds a parser for `example.com`
that disallows every URL. -/
def stDisallow : CrawlerState :=
  { robotsCache := [("example.com", some ⟨fun _ _ => false⟩)], registryLockInit := false }

/-! ## Helper lemmas about the orchestrator -/

theorem attemptRun_attrError (cfg : CrawlCfg) (domainOf : String → Option String)
    (url d : String) (usePW : Bool) (st : CrawlerState) (env : AttemptEnv)
    (hR : cfg.respectRobots = true) (hL : st.registryLockInit = false)
    (hD : domainOf url = some d) (hNE : d ≠ "")
    (hM : cacheLookup st.robotsCache d = none) :
    attemptRun cfg domainOf url usePW st env =
      (.error (.attributeError "_registry_lock"), st, 0, 0) := by
  unfold attemptRun checkRobotsTxt getRobotsParser
  rw [hR, hD]
  simp [hNE, hM, hL]

theorem attemptRun_noRobots (cfg : CrawlCfg) (domainOf : String → Option String)
    (url d : String) (usePW : Bool) (st : CrawlerState) (env : AttemptEnv)
    (hR : cfg.respectRobots = false) (hD : domainOf url = some d) :
    attemptRun cfg domainOf url usePW st env =
      ((if usePW then fetchWithPlaywright env.pw else performHttpxFetchAttempt env.httpx),
        st, 0, 1) := by
  unfold attemptRun
  rw [hR, hD]
  simp only [Bool.false_eq_true, if_false]
  cases usePW <;> simp

theorem fetchLoop_first_ok (cfg : CrawlCfg) (domainOf : String → Option String)
    (url : String) (usePW : Bool) (envs : Nat → AttemptEnv) (attempt fuel : Nat)
    (st st' : CrawlerState) (r : String × Nat × String) (rn fn : Nat)
    (hA : attemptRun cfg domainOf url usePW st (envs attempt) = (.ok r, st', rn, fn)) :
    fetchLoop cfg domainOf url usePW envs attempt fuel st = (.ok r, st', 1, rn, fn) := by
  cases fuel <;> simp only [fetchLoop, hA]

theorem fetchLoop_first_fatal (cfg : CrawlCfg) (domainOf : String → Option String)
    (url : String) (usePW : Bool) (envs : Nat → AttemptEnv) (attempt fuel : Nat)
    (st st' : CrawlerState) (e : PyExc) (rn fn : Nat)
    (hA : attemptRun cfg domainOf url usePW st (envs attempt) = (.error e, st', rn, fn))
    (hNR : retryableExc e = false) :
    fetchLoop cfg domainOf url usePW envs attempt fuel st = (.error e, st', 1, rn, fn) := by
  cases fuel <;> simp only [fetchLoop, hA, hNR, Bool.false_eq_true, ite_false]

/-! ## C1 — robots-disallow verdicts and the retry wrapper -/

/-- C1 counterexample: the claim "the retry wrapper does not re-invoke the
operation for a `RobotsTxtDisallowedError`" is false on the code.  The
decorator's exception tuple (crawler.py line 367) contains
`RobotsTxtDisallowedError`, so with `MAX_RETRIES = 2` a fetch of a URL whose
cached robots rules disallow everything invokes the wrapped body three
times before surfacing the 403. -/
theorem robots_disallow_is_retried_counterexample :
    retryableExc (.robotsDisallowed "http://example.com/" "LeadGenBot") = true ∧
    fetchInvocations { cfgR with maxRetries := 2 } dom0 "http://example.com/" false
      stDisallow (fun _ => env404) = 3 ∧
    fetchPage { cfgR with maxRetries := 2 } dom0 "http://example.com/" false
      stDisallow (fun _ => env404) = (none, 403, "http://example.com/") := by
  refine ⟨rfl, by decide, by decide⟩

/-- C1 amended: `RobotsTxtDisallowedError` is itself in the retryable tuple
of the wrapper around `fetch_page_content_with_retry`, alongside transport
errors, timeouts and browser errors; an operation that keeps raising a
robots-disallow verdict is re-invoked like any retryable failure, `N + 1`
invocations for a budget of `N` retries, before the verdict propagates. -/
theorem robots_disallow_retryable_amended (N : Nat) (url ua : String) :
    retryableExc (.robotsDisallowed url ua) = true ∧
    retryableExc .httpTimeout = true ∧
    retryableExc (.httpRequestError none) = true ∧
    retryableExc .pwTimeout = true ∧
    retryableExc .pwError = true ∧
    asyncRetry retryableExc N
        (fun _ => (.error (.robotsDisallowed url ua) : Except PyExc Unit)) =
      (.error (.robotsDisallowed url ua), N + 1) := by
  refine ⟨rfl, rfl, rfl, rfl, rfl, ?_⟩
  have h := retryGo_all_error retryableExc
    (fun _ => (.error (.robotsDisallowed url ua) : Except PyExc Unit))
    (fun _ => .robotsDisallowed url ua) (fun _ => rfl) (fun _ => rfl) N 0
  unfold asyncRetry
  rw [h]
  simp

/-- Witness for C1-as-amended: a retry budget of two re-invokes a
constantly-disallowed operation three times. -/
theorem robots_disallow_retryable_amended_witness :
    asyncRetry retryableExc 2
        (fun _ => (.error (.robotsDisallowed "http://example.com/" "LeadGenBot") :
          Except PyExc Unit)) =
      (.error (.robotsDisallowed "http://example.com/" "LeadGenBot"), 3) :=
  (robots_disallow_retryable_amended 2 "http://example.com/" "LeadGenBot").2.2.2.2.2

/-! ## C2 — cache-miss robots check crashes on the missing registry lock -/

/-- C2: with `RESPECT_ROBOTS_TXT` enabled, a fetch of any URL whose domain is
not in the robots-parser cache returns `(None, 500, url)` without fetching
the page: the cache-miss path of `_get_robots_parser` reads
`self._registry_lock`, which only `__post_init__` would assign — and that
hook is never invoked on this plain class — so the `AttributeError`
propagates (it is not in the retry tuple, hence a single invocation)
to `fetch_page`'s catch-all handler. -/
theorem fetch_uncached_domain_returns_500 (cfg : CrawlCfg)
    (domainOf : String → Option String) (url d : String) (usePW : Bool)
    (st : CrawlerState) (envs : Nat → AttemptEnv)
    (hR : cfg.respectRobots = true) (hL : st.registryLockInit = false)
    (hV : validScheme url = true) (hD : domainOf url = some d) (hNE : d ≠ "")
    (hM : cacheLookup st.robotsCache d = none) :
    fetchPage cfg domainOf url usePW st envs = (none, 500, url) ∧
    strategyFetches cfg domainOf url usePW st envs = 0 ∧
    fetchInvocations cfg domainOf url usePW st envs = 1 := by
  have hA := attemptRun_attrError cfg domainOf url d usePW st (envs 0) hR hL hD hNE hM
  have hF := fetchLoop_first_fatal cfg domainOf url usePW envs 0 cfg.maxRetries
    st st (.attributeError "_registry_lock") 0 0 hA rfl
  unfold fetchPage strategyFetches fetchInvocations fetchPageRun
  rw [hV, hD]
  simp [hF, handleExc]

/-- Witness for C2 at a concrete fresh crawler and URL. -/
theorem fetch_uncached_domain_returns_500_witness :
    fetchPage cfgR dom0 "http://example.com/" false mkCrawlerState (fun _ => env404) =
        (none, 500, "http://example.com/") ∧
    strategyFetches cfgR dom0 "http://example.com/" false mkCrawlerState (fun _ => env404) = 0 ∧
    fetchInvocations cfgR dom0 "http://example.com/" false mkCrawlerState (fun _ => env404) = 1 :=
  fetch_uncached_domain_returns_500 cfgR dom0 "http://example.com/" "example.com" false
    mkCrawlerState (fun _ => env404) rfl rfl (by decide) (by decide) (by decide) rfl

/-! ## C3 — sentinel status codes of `fetch_page` -/

/-- C3 counterexample: the claimed mapping "scripted-browser internal error
→ 597" and "timeout → 408" fail for the scripted-browser strategy.  An
unexpected internal error during a Playwright fetch, and equally a
Playwright navigation timeout, are surfaced by `fetch_page` as 598: the
`except PlaywrightBaseError` clause (crawler.py line 454) catches both
before any more specific handling, and the 597/408 codes computed inside
`_fetch_with_playwright` are discarded by the raise. -/
theorem sentinel_browser_codes_counterexample :
    (fetchPage { cfgNR with maxRetries := 0 } dom0 "http://example.com/" true mkCrawlerState
        (fun _ => { env404 with pw := .unexpectedErr }) = (none, 598, "http://example.com/") ∧
      (598 : Nat) ≠ 597) ∧
    (fetchPage { cfgNR with maxRetries := 0 } dom0 "http://example.com/" true mkCrawlerState
        (fun _ => { env404 with pw := .timeoutErr }) = (none, 598, "http://example.com/") ∧
      (598 : Nat) ≠ 408) := by
  exact ⟨⟨by decide, by decide⟩, ⟨by decide, by decide⟩⟩

/-- C3 amended: `fetch_page` maps robots-disallowed → 403, HTTP-client
timeout → 408, HTTP-client transport error → 599 (with the error's request
URL when present), EVERY scripted-browser failure — navigation error,
browser timeout, and internal error alike — → 598 (597 never escapes),
unexpected orchestrator error → 500, no derivable domain → 0, and every
other result carries the literal upstream HTTP status, for both
strategies. -/
theorem sentinel_mapping_amended (cfg : CrawlCfg) (domainOf : String → Option String)
    (url u ua ru t pu d : String) (s : Nat) (st : CrawlerState) (env : AttemptEnv)
    (hR : cfg.respectRobots = false) (hV : validScheme url = true)
    (hD : domainOf url = some d) :
    handleExc url (.robotsDisallowed u ua) = (none, 403, u) ∧
    handleExc url .httpTimeout = (none, 408, url) ∧
    handleExc url (.httpRequestError (some ru)) = (none, 599, ru) ∧
    handleExc url (.httpRequestError none) = (none, 599, url) ∧
    handleExc url .pwTimeout = (none, 598, url) ∧
    handleExc url .pwError = (none, 598, url) ∧
    handleExc url .runtimeError = (none, 500, url) ∧
    handleExc url (.httpStatusError s ru) = (none, s, ru) ∧
    (∀ url', validScheme url' = false →
      fetchPage cfg domainOf url' false st (fun _ => env) = (none, 0, url')) ∧
    (∀ url', validScheme url' = true → domainOf url' = none →
      fetchPage cfg domainOf url' false st (fun _ => env) = (none, 0, url')) ∧
    (is2xx s = true →
      fetchPage cfg domainOf url false st
        (fun _ => { env with httpx := .response s t u }) = (some t, s, u)) ∧
    fetchPage cfg domainOf url true st
      (fun _ => { env with pw := .response s t pu }) = (some t, s, pu) := by
  refine ⟨rfl, rfl, rfl, rfl, rfl, rfl, rfl, rfl, ?_, ?_, ?_, ?_⟩
  · intro url' hbad
    unfold fetchPage fetchPageRun
    rw [hbad]
    rfl
  · intro url' hok hnone
    unfold fetchPage fetchPageRun
    rw [hok, hnone]
    rfl
  · intro h2
    have hA := attemptRun_noRobots cfg domainOf url d false st
      { env with httpx := .response s t u } hR hD
    simp only [if_false, performHttpxFetchAttempt, h2, if_true] at hA
    have hF := fetchLoop_first_ok cfg domainOf url false
      (fun _ => { env with httpx := .response s t u }) 0 cfg.maxRetries st st
      (t, s, u) 0 1 hA
    unfold fetchPage fetchPageRun
    rw [hV, hD]
    simp [hF]
  · have hA := attemptRun_noRobots cfg domainOf url d true st
      { env with pw := .response s t pu } hR hD
    simp only [if_true, fetchWithPlaywright] at hA
    have hF := fetchLoop_first_ok cfg domainOf url true
      (fun _ => { env with pw := .response s t pu }) 0 cfg.maxRetries st st
      (t, s, pu) 0 1 hA
    unfold fetchPage fetchPageRun
    rw [hV, hD]
    simp [hF]

/-- Witness for C3-as-amended: a scripted-browser response with upstream
status 222 comes back literally. -/
theorem sentinel_mapping_amended_witness :
    fetchPage cfgNR dom0 "http://example.com/" true mkCrawlerState
      (fun _ => { env404 with pw := .response 222 "<b>b</b>" "http://example.com/f" }) =
      (some "<b>b</b>", 222, "http://example.com/f") :=
  (sentinel_mapping_amended cfgNR dom0 "http://example.com/" "u" "ua" "ru" "<b>b</b>"
    "http://example.com/f" "example.com" 222 mkCrawlerState env404
    rfl (by decide) (by decide)).2.2.2.2.2.2.2.2.2.2.2

/-! ## C4 — "body is null iff status not 2xx" -/

/-- Exceptions the fetch pipeline can actually raise carry non-2xx statuses:
an `httpx.HTTPStatusError` only ever comes from `raise_for_status()` on a
non-2xx response. -/
def ExcOK (e : PyExc) : Prop :=
  ∀ s ru, e = .httpStatusError s ru → is2xx s = false

theorem excOK_not_statusErr (e : PyExc)
    (hne : ∀ s ru, ¬ e = PyExc.httpStatusError s ru) : ExcOK e :=
  fun s ru h => absurd h (hne s ru)

theorem performHttpx_error_ExcOK (o : HttpxOutcome) (e : PyExc)
    (h : performHttpxFetchAttempt o = .error e) : ExcOK e := by
  cases o with
  | response s t u =>
    simp only [performHttpxFetchAttempt] at h
    split at h
    · exact absurd h (by simp)
    · rename_i hc
      simp only [Except.error.injEq] at h
      subst h
      intro s' ru' he
      injection he with h1 _
      subst h1
      exact Bool.not_eq_true _ |>.mp hc
  | timeout =>
    simp only [performHttpxFetchAttempt, Except.error.injEq] at h
    subst h
    exact excOK_not_statusErr _ (by intro s ru; simp)
  | reqError ru =>
    simp only [performHttpxFetchAttempt, Except.error.injEq] at h
    subst h
    exact excOK_not_statusErr _ (by intro s ru; simp)

theorem pw_error_ExcOK (o : PWOutcome) (e : PyExc)
    (h : fetchWithPlaywright o = .error e) : ExcOK e := by
  cases o with
  | response s t u => exact absurd h (by simp [fetchWithPlaywright])
  | noResponse =>
    simp only [fetchWithPlaywright, Except.error.injEq] at h
    subst h
    exact excOK_not_statusErr _ (by intro s ru; simp)
  | timeoutErr =>
    simp only [fetchWithPlaywright, Except.error.injEq] at h
    subst h
    exact excOK_not_statusErr _ (by intro s ru; simp)
  | baseErr =>
    simp only [fetchWithPlaywright, Except.error.injEq] at h
    subst h
    exact excOK_not_statusErr _ (by intro s ru; simp)
  | unexpectedErr =>
    simp only [fetchWithPlaywright, Except.error.injEq] at h
    subst h
    exact excOK_not_statusErr _ (by intro s ru; simp)

theorem getRobotsParser_error_ExcOK (cap : Nat) (st : CrawlerState) (domain : String)
    (a b : SchemeAttempt) (e : PyExc) (st' : CrawlerState) (n : Nat)
    (h : getRobotsParser cap st domain a b = (.error e, st', n)) : ExcOK e := by
  simp only [getRobotsParser] at h
  split at h
  · simp at h
  · split at h
    · simp at h
    · split at h
      · split at h
        · simp at h
        · simp at h
      · simp only [Prod.mk.injEq, Except.error.injEq] at h
        obtain ⟨rfl, -⟩ := h
        exact excOK_not_statusErr _ (by intro s ru; simp)

theorem checkRobots_error_ExcOK (cap : Nat) (st : CrawlerState)
    (domainOf : String → Option String) (ua url : String) (a b : SchemeAttempt)
    (e : PyExc) (st' : CrawlerState) (n : Nat)
    (h : checkRobotsTxt cap st domainOf ua url a b = (.error e, st', n)) : ExcOK e := by
  simp only [checkRobotsTxt] at h
  split at h
  · simp at h
  · split at h
    · rename_i heq
      simp only [Prod.mk.injEq, Except.error.injEq] at h
      obtain ⟨rfl, -⟩ := h
      exact getRobotsParser_error_ExcOK _ _ _ _ _ _ _ _ heq
    · simp at h
    · split at h
      · simp at h
      · simp only [Prod.mk.injEq, Except.error.injEq] at h
        obtain ⟨rfl, -⟩ := h
        exact excOK_not_statusErr _ (by intro s ru; simp)

theorem attemptRun_error_ExcOK (cfg : CrawlCfg) (domainOf : String → Option String)
    (url : String) (usePW : Bool) (st : CrawlerState) (env : AttemptEnv)
    (e : PyExc) (st' : CrawlerState) (rn fn : Nat)
    (h : attemptRun cfg domainOf url usePW st env = (.error e, st', rn, fn)) : ExcOK e := by
  simp only [attemptRun] at h
  by_cases hr : cfg.respectRobots = true
  · rw [hr] at h
    simp only [if_true] at h
    split at h
    · rename_i heq
      simp only [Prod.mk.injEq, Except.error.injEq] at h
      obtain ⟨rfl, -⟩ := h
      exact checkRobots_error_ExcOK _ _ _ _ _ _ _ _ _ _ heq
    · split at h
      · simp only [Prod.mk.injEq, Except.error.injEq] at h
        obtain ⟨rfl, -⟩ := h
        exact excOK_not_statusErr _ (by intro s ru; simp)
      · split at h
        · simp only [Prod.mk.injEq] at h
          exact pw_error_ExcOK _ _ h.1
        · simp only [Prod.mk.injEq] at h
          exact performHttpx_error_ExcOK _ _ h.1
  · rw [Bool.not_eq_true] at hr
    rw [hr] at h
    simp only [Bool.false_eq_true, if_false] at h
    split at h
    · simp only [Prod.mk.injEq, Except.error.injEq] at h
      obtain ⟨rfl, -⟩ := h
      exact excOK_not_statusErr _ (by intro s ru; simp)
    · split at h
      · simp only [Prod.mk.injEq] at h
        exact pw_error_ExcOK _ _ h.1
      · simp only [Prod.mk.injEq] at h
        exact performHttpx_error_ExcOK _ _ h.1

theorem fetchLoop_error_ExcOK (cfg : CrawlCfg) (domainOf : String → Option String)
    (url : String) (usePW : Bool) (envs : Nat → AttemptEnv) :
    ∀ fuel attempt st e st' inv rn fn,
      fetchLoop cfg domainOf url usePW envs attempt fuel st = (.error e, st', inv, rn, fn) →
      ExcOK e := by
  intro fuel
  induction fuel with
  | zero =>
    intro attempt st e st' inv rn fn h
    unfold fetchLoop at h
    split at h
    rename_i r st0 rn0 fn0 heq
    cases r with
    | ok v => simp at h
    | error e0 =>
      simp only [Prod.mk.injEq, Except.error.injEq] at h
      obtain ⟨rfl, -⟩ := h
      exact attemptRun_error_ExcOK _ _ _ _ _ _ _ _ _ _ heq
  | succ f ih =>
    intro attempt st e st' inv rn fn h
    unfold fetchLoop at h
    split at h
    · simp at h
    · rename_i e0 st0 rn0 fn0 heq
      split at h
      · split at h
        rename_i r1 st1 inv1 rn1 fn1 heq1
        simp only [Prod.mk.injEq] at h
        obtain ⟨h1, -⟩ := h
        rw [h1] at heq1
        exact ih _ _ _ _ _ _ _ heq1
      · simp only [Prod.mk.injEq, Except.error.injEq] at h
        obtain ⟨rfl, -⟩ := h
        exact attemptRun_error_ExcOK _ _ _ _ _ _ _ _ _ _ heq

theorem performHttpx_ok_2xx (o : HttpxOutcome) (b : String) (s : Nat) (u : String)
    (h : performHttpxFetchAttempt o = .ok (b, s, u)) : is2xx s = true := by
  cases o with
  | response s0 t0 u0 =>
    simp only [performHttpxFetchAttempt] at h
    split at h
    · rename_i hc
      simp only [Except.ok.injEq, Prod.mk.injEq] at h
      obtain ⟨-, hs, -⟩ := h
      subst hs
      exact hc
    · exact absurd h (by simp)
  | timeout => simp [performHttpxFetchAttempt] at h
  | reqError ru => simp [performHttpxFetchAttempt] at h

theorem attemptRun_ok_2xx (cfg : CrawlCfg) (domainOf : String → Option String)
    (url : String) (st : CrawlerState) (env : AttemptEnv)
    (b : String) (s : Nat) (u : String) (st' : CrawlerState) (rn fn : Nat)
    (h : attemptRun cfg domainOf url false st env = (.ok (b, s, u), st', rn, fn)) :
    is2xx s = true := by
  simp only [attemptRun, Bool.false_eq_true, if_false] at h
  by_cases hr : cfg.respectRobots = true
  · rw [hr] at h
    simp only [if_true] at h
    split at h
    · simp at h
    · split at h
      · simp at h
      · simp only [Prod.mk.injEq] at h
        exact performHttpx_ok_2xx _ _ _ _ h.1
  · rw [Bool.not_eq_true] at hr
    rw [hr] at h
    simp only [Bool.false_eq_true, if_false] at h
    split at h
    · simp at h
    · simp only [Prod.mk.injEq] at h
      exact performHttpx_ok_2xx _ _ _ _ h.1

theorem fetchLoop_ok_2xx (cfg : CrawlCfg) (domainOf : String → Option String)
    (url : String) (envs : Nat → AttemptEnv) :
    ∀ fuel attempt st b s u st' inv rn fn,
      fetchLoop cfg domainOf url false envs attempt fuel st =
        (.ok (b, s, u), st', inv, rn, fn) →
      is2xx s = true := by
  intro fuel
  induction fuel with
  | zero =>
    intro attempt st b s u st' inv rn fn h
    unfold fetchLoop at h
    split at h
    rename_i r st0 rn0 fn0 heq
    cases r with
    | ok v =>
      simp only [Prod.mk.injEq, Except.ok.injEq] at h
      obtain ⟨rfl, -⟩ := h
      exact attemptRun_ok_2xx _ _ _ _ _ _ _ _ _ _ _ heq
    | error e0 => simp at h
  | succ f ih =>
    intro attempt st b s u st' inv rn fn h
    unfold fetchLoop at h
    split at h
    · rename_i r st0 rn0 fn0 heq
      simp only [Prod.mk.injEq, Except.ok.injEq] at h
      obtain ⟨rfl, -⟩ := h
      exact attemptRun_ok_2xx _ _ _ _ _ _ _ _ _ _ _ heq
    · split at h
      · split at h
        rename_i r1 st1 inv1 rn1 fn1 heq1
        simp only [Prod.mk.injEq] at h
        obtain ⟨h1, -⟩ := h
        rw [h1] at heq1
        exact ih _ _ _ _ _ _ _ _ _ heq1
      · simp at h

theorem handleExc_body_none (url : String) (e : PyExc) : (handleExc url e).1 = none := by
  cases e <;> rfl

theorem handleExc_status_not2xx (url : String) (e : PyExc) (hOK : ExcOK e) :
    is2xx (handleExc url e).2.1 = false := by
  cases e with
  | httpStatusError s ru => exact hOK s ru rfl
  | httpRequestError ru => cases ru <;> rfl
  | _ => rfl

/-- Every run of `fetch_page` is of one of three shapes: the exception
handler's result on a pipeline exception (whose status errors are non-2xx),
a success carrying a body (with a 2xx status whenever the simple HTTP
strategy ran), or the invalid-input result `(None, 0, url)`. -/
theorem fetchPage_shape (cfg : CrawlCfg) (domainOf : String → Option String)
    (url : String) (usePW : Bool) (st : CrawlerState) (envs : Nat → AttemptEnv) :
    (∃ e, ExcOK e ∧ fetchPage cfg domainOf url usePW st envs = handleExc url e) ∨
    (∃ b s u, fetchPage cfg domainOf url usePW st envs = (some b, s, u) ∧
      (usePW = false → is2xx s = true)) ∨
    fetchPage cfg domainOf url usePW st envs = (none, 0, url) := by
  unfold fetchPage fetchPageRun
  by_cases hv : validScheme url = true
  · rw [hv]
    simp only [if_true]
    cases hdom : domainOf url with
    | none => right; right; rfl
    | some d =>
      rcases hl : fetchLoop cfg domainOf url usePW envs 0 cfg.maxRetries st with
        ⟨r, st2, inv2, rn2, fn2⟩
      cases r with
      | ok v =>
        obtain ⟨b, s, u⟩ := v
        right; left
        refine ⟨b, s, u, rfl, ?_⟩
        intro hPW
        subst hPW
        exact fetchLoop_ok_2xx cfg domainOf url envs cfg.maxRetries 0 st b s u
          st2 inv2 rn2 fn2 hl
      | error e =>
        left
        exact ⟨e, fetchLoop_error_ExcOK cfg domainOf url usePW envs cfg.maxRetries 0 st e
          st2 inv2 rn2 fn2 hl, rfl⟩
  · rw [Bool.not_eq_true] at hv
    rw [hv]
    right; right; rfl

/-- C4 counterexample: the claim "body is null iff status is not 2xx" fails
for the scripted-browser strategy, which returns the page body together
with a non-2xx upstream status (crawler.py lines 299-306 log a warning but
still return the content). -/
theorem body_iff_2xx_counterexample :
    fetchPage cfgNR dom0 "http://example.com/" true mkCrawlerState
        (fun _ => { env404 with pw := .response 404 "<html>nope</html>" "http://example.com/x" }) =
      (some "<html>nope</html>", 404, "http://example.com/x") ∧
    is2xx 404 = false := by
  exact ⟨by decide, by decide⟩

/-- C4 amended: `body is None` implies the status is not 2xx, for every run
and both strategies; the full equivalence (`body is None` iff not-2xx) holds
for the simple-HTTP strategy, whose `raise_for_status()` rejects every
non-2xx response — but not for the scripted-browser strategy, which returns
non-null bodies with non-2xx statuses. -/
theorem body_null_implies_not2xx :
    (∀ (cfg : CrawlCfg) (domainOf : String → Option String) (url : String)
      (usePW : Bool) (st : CrawlerState) (envs : Nat → AttemptEnv),
      (fetchPage cfg domainOf url usePW st envs).1 = none →
      is2xx (fetchPage cfg domainOf url usePW st envs).2.1 = false) ∧
    (∀ (cfg : CrawlCfg) (domainOf : String → Option String) (url : String)
      (st : CrawlerState) (envs : Nat → AttemptEnv),
      ((fetchPage cfg domainOf url false st envs).1 = none ↔
        is2xx (fetchPage cfg domainOf url false st envs).2.1 = false)) := by
  have main : ∀ (cfg : CrawlCfg) (domainOf : String → Option String) (url : String)
      (usePW : Bool) (st : CrawlerState) (envs : Nat → AttemptEnv),
      (fetchPage cfg domainOf url usePW st envs).1 = none →
      is2xx (fetchPage cfg domainOf url usePW st envs).2.1 = false := by
    intro cfg domainOf url usePW st envs hnone
    rcases fetchPage_shape cfg domainOf url usePW st envs with
      ⟨e, hok, heq⟩ | ⟨b, s, u, heq, -⟩ | heq
    · rw [heq]
      exact handleExc_status_not2xx url e hok
    · rw [heq] at hnone
      simp at hnone
    · rw [heq]
      rfl
  refine ⟨main, ?_⟩
  intro cfg domainOf url st envs
  constructor
  · exact main cfg domainOf url false st envs
  · intro hst
    rcases fetchPage_shape cfg domainOf url false st envs with
      ⟨e, -, heq⟩ | ⟨b, s, u, heq, h2⟩ | heq
    · rw [heq]
      exact handleExc_body_none url e
    · rw [heq] at hst
      rw [h2 rfl] at hst
      simp at hst
    · rw [heq]


/-- Witness for C4-as-amended: a timed-out HTTP-client run has a null body,
and the theorem yields that its status, 408, is not 2xx. -/
theorem body_null_implies_not2xx_witness :
    is2xx (fetchPage cfgNR dom0 "http://example.com/" false mkCrawlerState
      (fun _ => { env404 with httpx := .timeout })).2.1 = false :=
  body_null_implies_not2xx.1 cfgNR dom0 "http://example.com/" false mkCrawlerState
    (fun _ => { env404 with httpx := .timeout }) (by decide)

/-! ## C6 — DomainRateLimiter.acquire rate spacing (utils.py lines 258-291)

`acquire` holds the per-domain `asyncio.Lock` around the whole
read-compare-sleep-write sequence (line 266), so acquisitions of one domain
are serialized; a trace of acquisitions is therefore a list.  Times are
rationals (readings of `time.monotonic()`). -/

/-- One serialized execution of the locked section of `acquire`:
`arrive` is the `time.monotonic()` reading of line 267, `sample` the
`random.uniform(min_delay, max_delay)` draw of line 281, and `slack` the
(non-negative) extra time between the end of the `asyncio.sleep` and the
`time.monotonic()` recording of line 291 — scheduler noise. -/
structure AcquireObs where
  arrive : ℚ
  sample : ℚ
  slack : ℚ

/-- The recorded start time produced by the locked section (utils.py lines
267-291): `time_since_last = current_time - last`; if it falls short of the
sampled `required_delay`, sleep exactly the shortfall; then record
`time.monotonic()` — the sleep's end plus `slack`. -/
def acquireRecord (last : ℚ) (o : AcquireObs) : ℚ :=
  if o.arrive - last < o.sample then o.arrive + (o.sample - (o.arrive - last)) + o.slack
  else o.arrive + o.slack

/-- The successive recorded `_last_request_time` values of a serialized
trace of acquisitions, starting from recorded time `last`. -/
def acquireTrace (last : ℚ) : List AcquireObs → List ℚ
  | [] => []
  | o :: os => acquireRecord last o :: acquireTrace (acquireRecord last o) os

/-- Well-formedness of a trace: the clock is monotonic (each locked section
starts no earlier than the previous recording), scheduler noise is
non-negative, and each `random.uniform(min_delay, max_delay)` draw lies in
`[min_delay, max_delay]` — which `uniform` guarantees whenever
`min_delay ≤ max_delay`. -/
def traceOK (minD maxD : ℚ) : ℚ → List AcquireObs → Bool
  | _, [] => true
  | last, o :: os =>
    decide (last ≤ o.arrive) && decide (0 ≤ o.slack) &&
    decide (minD ≤ o.sample) && decide (o.sample ≤ maxD) &&
    traceOK minD maxD (acquireRecord last o) os

theorem acquireRecord_gap (minD : ℚ) (last : ℚ) (o : AcquireObs)
    (_h1 : last ≤ o.arrive) (h2 : 0 ≤ o.slack) (h3 : minD ≤ o.sample) :
    minD ≤ acquireRecord last o - last := by
  unfold acquireRecord
  split <;> rename_i hc
  · linarith
  · push_neg at hc
    linarith

/-- C6: for every domain and all configurations with
`min_delay ≤ max_delay`, consecutive recorded fetch starts of that domain's
serialized (lock-guarded, hence atomic check-sleep-record) acquisition
trace are separated by at least `min_delay`; the sampled required delay is
constrained to `[min_delay, max_delay]` exactly as `random.uniform` draws
it.  Stated as: every adjacent pair in the recorded-start sequence has gap
`≥ min_delay`. -/
theorem rate_spacing (minD maxD t0 : ℚ) (os : List AcquireObs)
    (_hmm : minD ≤ maxD) (hok : traceOK minD maxD t0 os = true) :
    List.Chain' (fun a b => minD ≤ b - a) (t0 :: acquireTrace t0 os) := by
  induction os generalizing t0 with
  | nil => simp [acquireTrace]
  | cons o os ih =>
    simp only [traceOK, Bool.and_eq_true, decide_eq_true_eq] at hok
    obtain ⟨⟨⟨⟨h1, h2⟩, h3⟩, h4⟩, htail⟩ := hok
    simp only [acquireTrace]
    rw [List.chain'_cons]
    exact ⟨acquireRecord_gap minD t0 o h1 h2 h3, ih (acquireRecord t0 o) htail⟩

/-- Witness for C6: a concrete two-acquisition trace with
`min_delay = 1`, `max_delay = 2`. -/
theorem rate_spacing_witness :
    List.Chain' (fun a b => (1 : ℚ) ≤ b - a)
      ((0 : ℚ) :: acquireTrace 0 [⟨0, 1, 0⟩, ⟨3/2, 2, 0⟩]) :=
  rate_spacing 1 2 0 [⟨0, 1, 0⟩, ⟨3/2, 2, 0⟩] (by norm_num)
    (by norm_num [traceOK, acquireRecord])

/-! ## C7 — per-domain concurrency ceiling and scoped release
(utils.py lines 237-321)

One domain's `asyncio.Semaphore(MAX_CONCURRENT_REQUESTS_PER_DOMAIN)`
(created once, utils.py line 255) with the ghost count of fetches currently
holding a permit. -/

/-- The semaphore's free-permit counter plus the number of in-flight
fetches holding a permit. -/
structure DomainSem where
  avail : Nat
  inflight : Nat
deriving DecidableEq, Repr

/-- `asyncio.Semaphore(cap)` fresh: `cap` permits free, nothing in flight. -/
def mkDomainSem (cap : Nat) : DomainSem := ⟨cap, 0⟩

/-- The semaphore's transitions: `await semaphore.acquire()` (utils.py line
263) completes only when a permit is free — otherwise the caller blocks with
no timeout — and `semaphore.release()` (utils.py line 296) is executed by a
permit holder's context-manager exit. -/
inductive SemStep : DomainSem → DomainSem → Prop where
  | acq (s : DomainSem) (h : 0 < s.avail) : SemStep s ⟨s.avail - 1, s.inflight + 1⟩
  | rel (s : DomainSem) (h : 0 < s.inflight) : SemStep s ⟨s.avail + 1, s.inflight - 1⟩

/-- States reachable from the freshly created semaphore. -/
def SemReachable (cap : Nat) (s : DomainSem) : Prop :=
  Relation.ReflTransGen SemStep (mkDomainSem cap) s

/-- Outcome of the body of an `async with` block: normal completion, an
exception, or cancellation of the task. -/
inductive Outcome where
  | ok
  | exc (e : PyExc)
  | cancelled
deriving DecidableEq, Repr

/-- A semaphore state instrumented with the count of performed releases. -/
structure SemCtx where
  sem : DomainSem
  releases : Nat
deriving DecidableEq, Repr

/-- The statements relevant to the rate-limit scope:
`DomainRateLimiter.acquire` / `.release` (utils.py lines 258-296), the fetch
body with a prescribed outcome, sequencing, and the try/finally shape that
Python's `async with` gives a context manager: `__aexit__` runs on normal
exit, on an exception, and on cancellation alike. -/
inductive SemProg where
  | acquirePermit
  | releasePermit
  | bodyStep (o : Outcome)
  | seqP (p q : SemProg)
  | tryFinallyP (p fin : SemProg)

/-- Executing a program: an exception or cancellation skips the rest of a
sequence, but the `fin` part of `tryFinallyP` always runs
(`DomainRateLimiterContextManager.__aexit__`, utils.py lines 317-318, calls
`release` unconditionally).  `acquirePermit` models a completed acquire —
the permit is taken; `releasePermit` returns it and bumps the release
count. -/
def execProg : SemProg → SemCtx → Outcome × SemCtx
  | .acquirePermit, c =>
    (.ok, { c with sem := ⟨c.sem.avail - 1, c.sem.inflight + 1⟩ })
  | .releasePermit, c =>
    (.ok, { sem := ⟨c.sem.avail + 1, c.sem.inflight - 1⟩, releases := c.releases + 1 })
  | .bodyStep o, c => (o, c)
  | .seqP p q, c =>
    match execProg p c with
    | (.ok, c') => execProg q c'
    | (r, c') => (r, c')
  | .tryFinallyP p fin, c =>
    match execProg p c with
    | (r, c') =>
      match execProg fin c' with
      | (.ok, c'') => (r, c'')
      | (rf, c'') => (rf, c'')

/-- `async with await self.domain_rate_limiter.wait_for_domain(domain):`
(crawler.py line 396): `wait_for_domain` completes `acquire`, then the
`async with` wraps the fetch body, whose exit — however it happens — runs
`__aexit__`, i.e. `release`. -/
def scopedFetchSection (o : Outcome) : SemProg :=
  .seqP .acquirePermit (.tryFinallyP (.bodyStep o) .releasePermit)

theorem semReachable_invariant (cap : Nat) (s : DomainSem)
    (h : SemReachable cap s) : s.avail + s.inflight = cap := by
  induction h with
  | refl => simp [mkDomainSem]
  | tail hsteps hstep ih =>
    cases hstep with
    | acq h => simp only; omega
    | rel h => simp only; omega

theorem execProg_scoped (o : Outcome) (c : SemCtx) (h : 0 < c.sem.avail) :
    execProg (scopedFetchSection o) c = (o, { c with releases := c.releases + 1 }) := by
  obtain ⟨⟨a, i⟩, r⟩ := c
  have ha : 0 < a := h
  cases o <;>
    simp only [scopedFetchSection, execProg, Prod.mk.injEq, SemCtx.mk.injEq,
      DomainSem.mk.injEq, true_and, and_true] <;>
    omega

/-- C7: (1) every reachable state of a domain's semaphore has at most
`MAX_CONCURRENT_REQUESTS_PER_DOMAIN` fetches in flight (the permit count
plus the in-flight count is conserved), and (2) the scoped acquisition of
crawler.py line 396 performs exactly one `release` per successful `acquire`
on every exit path of the body — success, exception, or cancellation — and
returns the semaphore to its pre-acquire state. -/
theorem concurrency_ceiling_and_scoped_release (cap : Nat) :
    (∀ s : DomainSem, SemReachable cap s → s.inflight ≤ cap) ∧
    (∀ (o : Outcome) (c : SemCtx), 0 < c.sem.avail →
      (execProg (scopedFetchSection o) c).2.releases = c.releases + 1 ∧
      (execProg (scopedFetchSection o) c).2.sem = c.sem ∧
      (execProg (scopedFetchSection o) c).1 = o) := by
  constructor
  · intro s hs
    have := semReachable_invariant cap s hs
    omega
  · intro o c h
    rw [execProg_scoped o c h]
    exact ⟨rfl, rfl, rfl⟩

/-- Witness for C7 with ceiling 1: after one acquire the reachable state
`⟨0, 1⟩` satisfies the bound, and a cancelled body still produces exactly
one release. -/
theorem concurrency_ceiling_and_scoped_release_witness :
    (⟨0, 1⟩ : DomainSem).inflight ≤ 1 ∧
    (execProg (scopedFetchSection .cancelled) ⟨⟨1, 0⟩, 0⟩).2.releases = 1 := by
  constructor
  · exact (concurrency_ceiling_and_scoped_release 1).1 ⟨0, 1⟩
      (Relation.ReflTransGen.single (SemStep.acq ⟨1, 0⟩ (by decide)))
  · exact ((concurrency_ceiling_and_scoped_release 1).2 .cancelled ⟨⟨1, 0⟩, 0⟩ (by decide)).1

/-! ## C8 — the robots-parser LRU cache bound -/

/-- Folding the lock-present cache-management step (`cacheGetOrInsert`) over
a request sequence: the discipline the code was WRITTEN to perform.  In the
program as shipped this fold is unreachable from the `__init__` state (every
miss raises `AttributeError` at crawler.py line 150 first — see
`robots_cache_lru_code_bug`); `robotsRequestsRun_locked` proves that the
faithful `getRobotsParser` performs exactly this fold once `_registry_lock`
exists, as `__post_init__` intended. -/
def insertSeq (cap : Nat) : RobotsCache → List (String × Option RobotsRules) → RobotsCache
  | c, [] => c
  | c, (d, v) :: rest => insertSeq cap (cacheGetOrInsert cap c d v) rest

theorem cacheLookup_eq_none_of_not_mem (c : RobotsCache) (d : String)
    (h : d ∉ cacheKeys c) : cacheLookup c d = none := by
  unfold cacheLookup
  have : c.find? (fun p => p.1 = d) = none := by
    rw [List.find?_eq_none]
    intro p hp
    simp only [decide_eq_true_eq]
    intro hpd
    exact h (hpd ▸ List.mem_map_of_mem Prod.fst hp)
  rw [this]

theorem cacheTouch_length_le (c : RobotsCache) (d : String) (v : Option RobotsRules)
    (h : cacheLookup c d = some v) : (cacheTouch c d).length ≤ c.length := by
  unfold cacheTouch
  rw [h]
  simp only [List.length_append, List.length_singleton]
  have hlt : (c.filter (fun p => p.1 ≠ d)).length < c.length := by
    rw [List.length_filter_lt_length_iff_exists]
    unfold cacheLookup at h
    cases hf : c.find? (fun p => p.1 = d) with
    | none => rw [hf] at h; exact absurd h (by simp)
    | some p =>
      refine ⟨p, List.mem_of_find?_eq_some hf, ?_⟩
      have := List.find?_some hf
      simp only [decide_eq_true_eq] at this
      simp [this]
  omega

theorem cacheInsert_length_le (cap : Nat) (c : RobotsCache) (d : String)
    (v : Option RobotsRules) (hcap : 1 ≤ cap) (hlen : c.length ≤ cap) :
    (cacheInsert cap c d v).length ≤ cap := by
  unfold cacheInsert
  by_cases hfull : cap ≤ c.length
  · rw [if_pos hfull]
    simp only [List.length_append, List.length_drop, List.length_singleton]
    omega
  · rw [if_neg hfull]
    simp only [List.length_append, List.length_singleton]
    omega

theorem cacheKeys_append (c₁ c₂ : RobotsCache) :
    cacheKeys (c₁ ++ c₂) = cacheKeys c₁ ++ cacheKeys c₂ :=
  List.map_append Prod.fst c₁ c₂

theorem drop_one_append_drop (l x : List α) (n : Nat) (hne : 1 ≤ l.length) :
    (l ++ x).drop (n + 1) = (l.drop 1 ++ x).drop n := by
  cases l with
  | nil => simp at hne
  | cons a l' => simp [List.drop_succ_cons]

theorem insertSeq_window (cap : Nat) (hcap : 1 ≤ cap) :
    ∀ (ds : List (String × Option RobotsRules)) (c : RobotsCache),
      (cacheKeys c ++ ds.map Prod.fst).Nodup → c.length ≤ cap →
      cacheKeys (insertSeq cap c ds) =
        (cacheKeys c ++ ds.map Prod.fst).drop (c.length + ds.length - cap) := by
  intro ds
  induction ds with
  | nil =>
    intro c hnd hlen
    simp [insertSeq, Nat.sub_eq_zero_of_le hlen]
  | cons p rest ih =>
    obtain ⟨d, v⟩ := p
    intro c hnd hlen
    have hd : d ∉ cacheKeys c := by
      intro hmem
      have hdisj := (List.nodup_append.mp hnd).2.2
      exact hdisj hmem (by simp)
    have hlk : cacheLookup c d = none := cacheLookup_eq_none_of_not_mem c d hd
    simp only [insertSeq, cacheGetOrInsert, hlk]
    have hklen : (cacheKeys c).length = c.length := List.length_map c Prod.fst
    by_cases hfull : cap ≤ c.length
    · have hceq : c.length = cap := le_antisymm hlen hfull
      simp only [cacheInsert, if_pos hfull]
      have hkeys : cacheKeys (c.drop 1 ++ [(d, v)]) = (cacheKeys c).drop 1 ++ [d] := by
        rw [cacheKeys_append]
        unfold cacheKeys
        rw [List.map_drop]
        rfl
      have hsub : ((cacheKeys c).drop 1 ++ ([d] ++ List.map Prod.fst rest)).Sublist
          (cacheKeys c ++ ([d] ++ List.map Prod.fst rest)) :=
        List.Sublist.append (List.drop_sublist 1 (cacheKeys c)) (List.Sublist.refl _)
      have hnd' : (cacheKeys (c.drop 1 ++ [(d, v)]) ++ rest.map Prod.fst).Nodup := by
        rw [hkeys, List.append_assoc]
        refine List.Nodup.sublist hsub ?_
        rw [← List.append_assoc]
        have : cacheKeys c ++ [d] ++ rest.map Prod.fst =
            cacheKeys c ++ ((d, v) :: rest).map Prod.fst := by
          simp
        rw [this]
        exact hnd
      have hlen' : (c.drop 1 ++ [(d, v)]).length ≤ cap := by
        simp only [List.length_append, List.length_drop, List.length_singleton]
        omega
      rw [ih (c.drop 1 ++ [(d, v)]) hnd' hlen']
      rw [hkeys]
      have harith1 : (c.drop 1 ++ [(d, v)]).length + rest.length - cap = rest.length := by
        simp only [List.length_append, List.length_drop, List.length_singleton]
        omega
      have harith2 : c.length + ((d, v) :: rest).length - cap = rest.length + 1 := by
        simp only [List.length_cons]
        omega
      rw [harith1, harith2]
      have hstep : (cacheKeys c ++ ((d, v) :: rest).map Prod.fst).drop (rest.length + 1) =
          ((cacheKeys c).drop 1 ++ ((d, v) :: rest).map Prod.fst).drop rest.length :=
        drop_one_append_drop (cacheKeys c) (((d, v) :: rest).map Prod.fst) rest.length
          (by omega)
      rw [hstep]
      congr 1
      simp [List.append_assoc]
    · push_neg at hfull
      simp only [cacheInsert, if_neg (not_le.mpr hfull)]
      have hkeys : cacheKeys (c ++ [(d, v)]) = cacheKeys c ++ [d] := by
        rw [cacheKeys_append]; rfl
      have hnd' : (cacheKeys (c ++ [(d, v)]) ++ rest.map Prod.fst).Nodup := by
        rw [hkeys, List.append_assoc]
        have : cacheKeys c ++ ([d] ++ rest.map Prod.fst) =
            cacheKeys c ++ ((d, v) :: rest).map Prod.fst := by simp
        rw [this]
        exact hnd
      have hlen' : (c ++ [(d, v)]).length ≤ cap := by
        simp only [List.length_append, List.length_singleton]
        omega
      rw [ih (c ++ [(d, v)]) hnd' hlen']
      rw [hkeys]
      have harith : (c ++ [(d, v)]).length + rest.length =
          c.length + ((d, v) :: rest).length := by
        simp only [List.length_append, List.length_singleton, List.length_cons,
          List.length_nil]
        omega
      rw [harith]
      congr 1
      simp [List.append_assoc]

/-- Helper: the lock-present cache-management steps in isolation preserve
the `ROBOTS_TXT_CACHE_SIZE` bound, a hit makes its entry most-recently-used,
and folding `cap + k` distinct fresh insertions over an empty cache leaves
exactly the last `cap`, the `k` least-recently-used absent.  (This is about
the sub-path below crawler.py line 150; the claim-level statement over the
full `_get_robots_parser` path is `robots_cache_lru_code_bug`.) -/
theorem cacheDiscipline_spec :
    (∀ (cap : Nat) (c : RobotsCache) (d : String) (v : Option RobotsRules),
      1 ≤ cap → c.length ≤ cap → (cacheGetOrInsert cap c d v).length ≤ cap) ∧
    (∀ (c : RobotsCache) (d : String) (v : Option RobotsRules),
      cacheLookup c d = some v → (cacheTouch c d).getLast? = some (d, v)) ∧
    (∀ (cap k : Nat) (ds : List (String × Option RobotsRules)),
      1 ≤ cap → 1 ≤ k → ds.length = cap + k → (ds.map Prod.fst).Nodup →
      cacheKeys (insertSeq cap [] ds) = (ds.map Prod.fst).drop k ∧
      (insertSeq cap [] ds).length = cap ∧
      ∀ x ∈ (ds.map Prod.fst).take k, x ∉ cacheKeys (insertSeq cap [] ds)) := by
  refine ⟨?_, ?_, ?_⟩
  · intro cap c d v hcap hlen
    unfold cacheGetOrInsert
    cases hlk : cacheLookup c d with
    | some v' => exact le_trans (cacheTouch_length_le c d v' hlk) hlen
    | none => exact cacheInsert_length_le cap c d v hcap hlen
  · intro c d v h
    unfold cacheTouch
    rw [h]
    exact List.getLast?_concat _
  · intro cap k ds hcap hk hlen hnd
    have hwin := insertSeq_window cap hcap ds [] (by simpa using hnd) (by simp)
    simp only [cacheKeys, List.map_nil, List.nil_append, List.length_nil,
      List.length_cons, Nat.zero_add] at hwin
    have harith : ds.length - cap = k := by omega
    rw [harith] at hwin
    have hmaplen : (ds.map Prod.fst).length = cap + k := by
      rw [List.length_map]; exact hlen
    have hwin' : cacheKeys (insertSeq cap [] ds) = (ds.map Prod.fst).drop k := hwin
    refine ⟨hwin', ?_, ?_⟩
    · have h1 : ((ds.map Prod.fst).drop k).length = cap := by
        rw [List.length_drop, hmaplen]
        omega
      have h2 : (insertSeq cap [] ds).length = (cacheKeys (insertSeq cap [] ds)).length :=
        (List.length_map _ Prod.fst).symm
      rw [h2, hwin']
      exact h1
    · intro x hxtake
      rw [hwin']
      have hsplit := List.take_append_drop k (ds.map Prod.fst)
      have hndsplit : ((ds.map Prod.fst).take k ++ (ds.map Prod.fst).drop k).Nodup := by
        rw [hsplit]; exact hnd
      exact (List.nodup_append.mp hndsplit).2.2 hxtake

/-- A serialized sequence of robots-rules requests through the full
`_get_robots_parser` path: each element is a requested domain with the
network's two scheme outcomes for its robots.txt; the fold returns the final
crawler state.  (The per-domain fetch lock serializes overlapping misses;
every step of the miss path up to the line-150 `AttributeError` is
synchronous.) -/
def robotsRequestsRun (cap : Nat) :
    CrawlerState → List (String × SchemeAttempt × SchemeAttempt) → CrawlerState
  | st, [] => st
  | st, (d, a, b) :: rest => robotsRequestsRun cap (getRobotsParser cap st d a b).2.1 rest

theorem getRobotsParser_init_state (cap : Nat) (d : String) (a b : SchemeAttempt) :
    (getRobotsParser cap mkCrawlerState d a b).2.1 = mkCrawlerState := by
  unfold getRobotsParser
  by_cases hd : d = ""
  · rw [if_pos hd]
  · rw [if_neg hd]
    rfl

/-- On a state whose `_registry_lock` exists, one `_get_robots_parser` call
for a non-empty domain performs exactly the `cacheGetOrInsert` step (the
double-check re-lookup of crawler.py line 157 sees the same cache in a
serialized call). -/
theorem getRobotsParser_locked_cache (cap : Nat) (c : RobotsCache) (d : String)
    (a b : SchemeAttempt) (hd : d ≠ "") :
    (getRobotsParser cap ⟨c, true⟩ d a b).2.1 =
      ⟨cacheGetOrInsert cap c d (fetchAndParseRobotsTxt d a b), true⟩ := by
  unfold getRobotsParser cacheGetOrInsert
  rw [if_neg hd]
  cases hlk : cacheLookup c d with
  | some v => simp only [hlk]
  | none => simp only [hlk, if_true]

/-- On a locked state, a request sequence with non-empty domains performs
the `insertSeq` fold of the cache-management discipline. -/
theorem robotsRequestsRun_locked (cap : Nat) :
    ∀ (reqs : List (String × SchemeAttempt × SchemeAttempt)) (c : RobotsCache),
      (∀ r ∈ reqs, r.1 ≠ "") →
      robotsRequestsRun cap ⟨c, true⟩ reqs =
        ⟨insertSeq cap c
          (reqs.map (fun r => (r.1, fetchAndParseRobotsTxt r.1 r.2.1 r.2.2))), true⟩ := by
  intro reqs
  induction reqs with
  | nil => intro c _; rfl
  | cons r rest ih =>
    obtain ⟨d, a, b⟩ := r
    intro c hne
    simp only [robotsRequestsRun]
    rw [getRobotsParser_locked_cache cap c d a b (hne (d, a, b) (by simp))]
    rw [ih _ (fun r hr => hne r (List.mem_cons_of_mem _ hr))]
    rfl

/-- C8, on the code as written: the claimed cap+k-insertions scenario never
executes.  (1) From the state `__init__` actually produces, ANY sequence of
requests through `_get_robots_parser` leaves the crawler state — and hence
the cache — exactly as it started (empty): every miss raises
`AttributeError` at crawler.py line 150 before the insertion code at lines
164-169 can run, so after `ROBOTS_TXT_CACHE_SIZE + k` distinct requests the
cache holds 0 entries, not `ROBOTS_TXT_CACHE_SIZE`.  Meanwhile the parts of
the claim the shipped code does satisfy are proved of the full path:
(2) every `_get_robots_parser` call preserves the
`ROBOTS_TXT_CACHE_SIZE` bound (for the configured capacities — the config
enforces `ROBOTS_TXT_CACHE_SIZE ≥ 10`), and (3) a cache hit moves its entry
to the most-recently-used end.  (4) Once `_registry_lock` exists — what
`__post_init__` (lines 480-481) was written to ensure, asserted by
`test_get_robots_parser_caching` — the full path does realize the claimed
discipline: `cap + k` distinct fresh domains (k > 0) leave exactly `cap`
entries, the k least-recently-used (earliest-requested) domains absent. -/
theorem robots_cache_lru_code_bug :
    (∀ (cap : Nat) (reqs : List (String × SchemeAttempt × SchemeAttempt)),
      robotsRequestsRun cap mkCrawlerState reqs = mkCrawlerState) ∧
    (∀ (cap : Nat) (st : CrawlerState) (d : String) (a b : SchemeAttempt),
      1 ≤ cap → st.robotsCache.length ≤ cap →
      (getRobotsParser cap st d a b).2.1.robotsCache.length ≤ cap) ∧
    (∀ (cap : Nat) (st : CrawlerState) (d : String) (a b : SchemeAttempt)
      (v : Option RobotsRules), d ≠ "" → cacheLookup st.robotsCache d = some v →
      ((getRobotsParser cap st d a b).2.1.robotsCache).getLast? = some (d, v)) ∧
    (∀ (cap k : Nat) (reqs : List (String × SchemeAttempt × SchemeAttempt)),
      1 ≤ cap → 1 ≤ k → reqs.length = cap + k →
      (reqs.map (fun r => r.1)).Nodup → (∀ r ∈ reqs, r.1 ≠ "") →
      cacheKeys (robotsRequestsRun cap (postInit mkCrawlerState) reqs).robotsCache =
        (reqs.map (fun r => r.1)).drop k ∧
      (robotsRequestsRun cap (postInit mkCrawlerState) reqs).robotsCache.length = cap ∧
      ∀ x ∈ (reqs.map (fun r => r.1)).take k,
        x ∉ cacheKeys (robotsRequestsRun cap (postInit mkCrawlerState) reqs).robotsCache) := by
  refine ⟨?_, ?_, ?_, ?_⟩
  · intro cap reqs
    induction reqs with
    | nil => rfl
    | cons r rest ih =>
      obtain ⟨d, a, b⟩ := r
      simp only [robotsRequestsRun, getRobotsParser_init_state, ih]
  · intro cap st d a b hcap hlen
    unfold getRobotsParser
    by_cases hd : d = ""
    · rw [if_pos hd]
      exact hlen
    · rw [if_neg hd]
      cases hlk : cacheLookup st.robotsCache d with
      | some v =>
        simp only [hlk]
        exact le_trans (cacheTouch_length_le st.robotsCache d v hlk) hlen
      | none =>
        simp only [hlk]
        by_cases hlock : st.registryLockInit = true
        · rw [hlock]
          simp only [if_true]
          exact cacheInsert_length_le cap st.robotsCache d _ hcap hlen
        · rw [Bool.not_eq_true] at hlock
          rw [hlock]
          simp only [Bool.false_eq_true, if_false]
          exact hlen
  · intro cap st d a b v hd hlk
    unfold getRobotsParser
    rw [if_neg hd]
    simp only [hlk]
    unfold cacheTouch
    rw [hlk]
    exact List.getLast?_concat _
  · intro cap k reqs hcap hk hlen hnd hne
    have hbridge := robotsRequestsRun_locked cap reqs [] hne
    have hpost : postInit mkCrawlerState = (⟨[], true⟩ : CrawlerState) := rfl
    have hds : ((reqs.map
          (fun r => (r.1, fetchAndParseRobotsTxt r.1 r.2.1 r.2.2))).map Prod.fst) =
        reqs.map (fun r => r.1) := by
      rw [List.map_map]
      rfl
    have hlen2 : (reqs.map
        (fun r => (r.1, fetchAndParseRobotsTxt r.1 r.2.1 r.2.2))).length = cap + k := by
      rw [List.length_map]
      exact hlen
    have hnd2 : ((reqs.map
        (fun r => (r.1, fetchAndParseRobotsTxt r.1 r.2.1 r.2.2))).map Prod.fst).Nodup := by
      rw [hds]
      exact hnd
    have hmain := cacheDiscipline_spec.2.2 cap k
      (reqs.map (fun r => (r.1, fetchAndParseRobotsTxt r.1 r.2.1 r.2.2)))
      hcap hk hlen2 hnd2
    rw [hds] at hmain
    have hcache : (robotsRequestsRun cap (postInit mkCrawlerState) reqs).robotsCache =
        insertSeq cap []
          (reqs.map (fun r => (r.1, fetchAndParseRobotsTxt r.1 r.2.1 r.2.2))) := by
      rw [hpost, hbridge]
    rw [hcache]
    exact hmain

/-- Witness for C8's evaluations: with capacity 2 and four distinct
domains, the real `__init__` state ends with the untouched empty state,
while the state `__post_init__` intended ends with exactly the last two
domains cached. -/
theorem robots_cache_lru_code_bug_witness :
    robotsRequestsRun 2 mkCrawlerState
      [("a.com", .notFound, .notFound), ("b.com", .notFound, .notFound),
        ("c.com", .notFound, .notFound), ("d.com", .notFound, .notFound)] =
      mkCrawlerState ∧
    cacheKeys (robotsRequestsRun 2 (postInit mkCrawlerState)
      [("a.com", .notFound, .notFound), ("b.com", .notFound, .notFound),
        ("c.com", .notFound, .notFound), ("d.com", .notFound, .notFound)]).robotsCache =
      ["c.com", "d.com"] := by
  constructor
  · exact robots_cache_lru_code_bug.1 2
      [("a.com", .notFound, .notFound), ("b.com", .notFound, .notFound),
        ("c.com", .notFound, .notFound), ("d.com", .notFound, .notFound)]
  · have h := (robots_cache_lru_code_bug.2.2.2 2 2
      [("a.com", .notFound, .notFound), ("b.com", .notFound, .notFound),
        ("c.com", .notFound, .notFound), ("d.com", .notFound, .notFound)]
      (by decide) (by decide) rfl (by decide) (by decide)).1
    rw [h]
    rfl

/-! ## C9 — single-flight robots.txt fetch -/

/-- `n` callers requesting robots rules for the same domain, serialized (the
event loop interleaves them, but every step of the cache-miss path up to the
`AttributeError` is synchronous): the final crawler state and the total
number of robots.txt network fetches. -/
def robotsCallersRun (cap : Nat) (d : String) (a b : SchemeAttempt) :
    Nat → CrawlerState → CrawlerState × Nat
  | 0, st => (st, 0)
  | n + 1, st =>
    match getRobotsParser cap st d a b with
    | (_, st', fn) =>
      match robotsCallersRun cap d a b n st' with
      | (stF, total) => (stF, fn + total)

/-- C9, on the code as written: the claim's single network fetch never
happens.  Every caller that misses the cache executes
`async with self._registry_lock:` (crawler.py line 150) and raises
`AttributeError` — `__post_init__` (lines 480-481), the only assignment of
that attribute, is never invoked on this plain class — so for any number of
callers requesting an uncached domain, ZERO robots.txt fetches occur and
the cache stays empty, while the repository's own tests
(`test_get_robots_parser_caching`,
`test_fetch_page_respects_robots_txt_disallowed`) assert the intended
fetch-once-then-cache behaviour. -/
theorem single_flight_zero_fetches_code_bug :
    ∀ (cap : Nat) (a b : SchemeAttempt) (n : Nat),
      getRobotsParser cap mkCrawlerState "example.com" a b =
        (.error (.attributeError "_registry_lock"), mkCrawlerState, 0) ∧
      robotsCallersRun cap "example.com" a b n mkCrawlerState = (mkCrawlerState, 0) := by
  intro cap a b n
  have hg : getRobotsParser cap mkCrawlerState "example.com" a b =
      (.error (.attributeError "_registry_lock"), mkCrawlerState, 0) := rfl
  refine ⟨hg, ?_⟩
  induction n with
  | zero => rfl
  | succ m ih =>
    simp only [robotsCallersRun, hg, ih]

/-! ## C10 — robots.txt retrieval failures degrade to permissive -/

/-- C10, on the code as written.  Component level, the claim holds:
`_fetch_and_parse_robots_txt` answers the permissive `None` for a domain
whose robots.txt 404s on both schemes, is unreachable, returns another
error status, or is unparseable — never an exception.  And on a crawler
whose `_registry_lock` exists (what `__post_init__` was written to ensure),
the full pipeline then proceeds to fetch the page.  But on the state
`__init__` actually produces, the robots check of the very same
404-on-both-schemes domain raises `AttributeError` before any robots.txt
request, and `fetch_page` returns `(None, 500, url)` without the page fetch
the claim promises — contradicting the repository's own test
`test_fetch_page_respects_robots_txt_disallowed`, which expects the allowed
URL of an uncached domain to come back with status 200. -/
theorem robots_failure_permissive_code_bug :
    fetchAndParseRobotsTxt "example.com" .notFound .notFound = none ∧
    fetchAndParseRobotsTxt "example.com" .reqError .notFound = none ∧
    fetchAndParseRobotsTxt "example.com" (.otherStatus 500) .reqError = none ∧
    fetchAndParseRobotsTxt "example.com" (.ok none) .notFound = none ∧
    fetchPage cfgR dom0 "http://example.com/" false (postInit mkCrawlerState)
      (fun _ => env404) = (some "<html>ok</html>", 200, "http://example.com/") ∧
    fetchPage cfgR dom0 "http://example.com/" false mkCrawlerState
      (fun _ => env404) = (none, 500, "http://example.com/") ∧
    strategyFetches cfgR dom0 "http://example.com/" false mkCrawlerState
      (fun _ => env404) = 0 :=
  ⟨rfl, rfl, rfl, rfl, by decide, by decide, by decide⟩

end LeadGen

